import Mathlib

/-!
Verification of the AudioJournal voice-memo recorder (React Native / Expo).

The development shallowly embeds the stateful screen logic of
`src/screens/RecordsScreen.tsx` and `src/screens/VoiceNoteModal.tsx`:

* component state (`useState` hooks) becomes explicit record types;
* each handler becomes a pure function from the old state (plus the
  outcomes of the external device / storage calls, passed as parameters)
  to the new state;
* `AsyncStorage` under the single key `"voiceNotes"` becomes an
  `Option (List VoiceNote)` (`none` = key absent); `JSON.stringify` /
  `JSON.parse` round-trip is modelled as the identity on the collection;
* the file system visible to `expo-file-system` becomes the list of
  existing URIs;
* a JavaScript closure is modelled by passing the captured render state
  explicitly: a handler defined in render `ctx` reads `ctx`, while its
  `setX` calls update the current state.

Numbers: elapsed seconds and ids are `Nat`; millisecond positions,
progress ratios and playback rates are `ℚ` (the JS `number`s involved in
the claims are exact on these inputs).
-/

namespace AudioJournal

/-- A voice note record, `interface VoiceNote` of `RecordsScreen.tsx`
(fields `id, text, uri, date, time, duration`), persisted verbatim. -/
structure VoiceNote where
  id : String
  text : String
  uri : String
  date : String
  time : String
  duration : Nat
  deriving Repr, DecidableEq

/-- The durable store: contents of the `AsyncStorage` key `"voiceNotes"`,
`none` when the key was never written. -/
abbrev Store := Option (List VoiceNote)

/-- Constant `MAX_RECORDING_DURATION = 600` of `RecordsScreen.tsx`. -/
def MAX_RECORDING_DURATION : Nat := 600

/-- Successful `saveNotes(notes)`:
`AsyncStorage.setItem(STORAGE_KEY, JSON.stringify(notes))` replaces the
stored collection wholesale. -/
def saveNotes (notes : List VoiceNote) (_store : Store) : Store :=
  some notes

/-- The collection update performed by `editNote(newText)` in
`RecordsScreen.tsx` (lines 315-329): map over the notes, replacing the
text of every note whose id equals the id of the selected note. -/
def editNoteNotes (selectedId newText : String) (notes : List VoiceNote) :
    List VoiceNote :=
  notes.map fun note =>
    if note.id = selectedId then { note with text := newText } else note

/-- The collection update performed by `deleteNote(noteId)`
(lines 299-313): keep the notes whose id differs from `noteId`. -/
def deleteNoteNotes (noteId : String) (notes : List VoiceNote) :
    List VoiceNote :=
  notes.filter fun note => note.id ≠ noteId

/-- Full `deleteNote(noteId)` (lines 299-313): look the note up, attempt
`FileSystem.deleteAsync(noteToDelete.uri).catch(() => \x7b\x7d)` — a failed
file delete is swallowed and the control flow continues — then filter the
collection and persist it. Returns (new in-memory collection, new store
contents, new file system). -/
def deleteNoteOp (noteId : String) (notes : List VoiceNote) (store : Store)
    (fs : List String) : List VoiceNote × Store × List String :=
  let fsAfter :=
    match notes.find? (fun note => note.id = noteId) with
    | some noteToDelete =>
        if noteToDelete.uri ∈ fs then fs.erase noteToDelete.uri else fs
    | none => fs
  let updatedNotes := deleteNoteNotes noteId notes
  (updatedNotes, saveNotes updatedNotes store, fsAfter)

/-- The three collection-mutating operations the screen performs:
`create` is the prepend `[newNote, ...voiceNotes]` of
`handleStopRecording`, `rename` is `editNote`, `delete` is `deleteNote`. -/
inductive NoteOp where
  | create (newNote : VoiceNote)
  | rename (id text : String)
  | delete (id : String)
  deriving Repr, DecidableEq

/-- Effect of one operation on the in-memory collection. -/
def applyNoteOp : NoteOp → List VoiceNote → List VoiceNote
  | .create newNote, notes => newNote :: notes
  | .rename id text, notes => editNoteNotes id text notes
  | .delete id, notes => deleteNoteNotes id notes

/-- One operation followed by its persistence step: the screen always
calls `setVoiceNotes(updatedNotes)` and then `await saveNotes(updatedNotes)`
with the same list. -/
def noteOpStep (op : NoteOp) (s : List VoiceNote × Store) :
    List VoiceNote × Store :=
  (applyNoteOp op s.1, saveNotes (applyNoteOp op s.1) s.2)

/-- States observed after each operation of a sequence. -/
def noteOpTrace : List NoteOp → List VoiceNote × Store →
    List (List VoiceNote × Store)
  | [], _ => []
  | op :: ops, s =>
      let s' := noteOpStep op s
      s' :: noteOpTrace ops s'

/-- Hook state `recordingState` (`interface RecordingState`). -/
structure RecordingState where
  isRecording : Bool
  duration : Nat
  isPaused : Bool
  deriving Repr, DecidableEq

/-- Hook state `playbackState` (`interface PlaybackState`): `progress` is
the ratio `positionMillis / durationMillis`. -/
structure PlaybackState where
  isPlaying : Bool
  playbackSpeed : ℚ
  currentNoteId : Option String
  progress : ℚ
  deriving Repr, DecidableEq

/-- The component state of `RecordsScreen` relevant to the claims:
`voiceNotes`, the active `Audio.Recording` (modelled by the URI it will
deliver, `none` when `recording === null`), the loaded `Audio.Sound`
(modelled by an opaque handle number, `none` when `currentSound === null`),
and the two hook records. -/
structure ScreenState where
  voiceNotes : List VoiceNote
  recording : Option String
  currentSound : Option Nat
  recordingState : RecordingState
  playbackState : PlaybackState
  deriving Repr, DecidableEq

/-- Initial component state of `RecordsScreen` (the `useState` defaults). -/
def initialScreenState : ScreenState where
  voiceNotes := []
  recording := none
  currentSound := none
  recordingState := { isRecording := false, duration := 0, isPaused := false }
  playbackState :=
    { isPlaying := false, playbackSpeed := 1, currentNoteId := none,
      progress := 0 }

/-- Handler `handleStartRecording` (lines 157-175). `granted` is the
outcome of `Audio.requestPermissionsAsync()`; `uri` is the URI the new
`Audio.Recording` will deliver. On denial the handler alerts and returns
without touching any state; on grant it stores the new recording and sets
`recordingState` to `\x7b isRecording: true, duration: 0, isPaused: false \x7d`.
No playback field is read or written on either path. -/
def handleStartRecording (granted : Bool) (uri : String)
    (st : ScreenState) : ScreenState :=
  if granted then
    { st with
      recording := some uri
      recordingState :=
        { isRecording := true, duration := 0, isPaused := false } }
  else st

/-- Handler `playAudio(uri, noteId)` (lines 209-254). Any previous sound
is unloaded, then `Audio.Sound.createAsync` loads the note; `loadOk` is
the outcome of that call and `newHandle` the handle it yields. On success the
sound is stored and `playbackState` updated; on failure the handler alerts
and performs no state update. The recording fields are never touched. -/
def playAudio (noteId : String) (newHandle : Nat) (loadOk : Bool)
    (st : ScreenState) : ScreenState :=
  if loadOk then
    { st with
      currentSound := some newHandle
      playbackState :=
        { st.playbackState with
          isPlaying := true, currentNoteId := some noteId, progress := 0 } }
  else st

/-- Handler `handleStopRecording` (lines 177-206) as the closure created
in the render whose state was `ctx`: it reads `recording`, `voiceNotes`
and `recordingState` from `ctx` (JavaScript closure capture), while its
`setVoiceNotes` / `setRecording` / `setRecordingState` calls update the
current state `st`. `stopOk` is the combined outcome of
`recording.stopAndUnloadAsync()` and the `getURI()` null check (both
failures land in the same `catch`); `newId`, `date`, `time` come from
`Date.now()` / `new Date()`. The `finally` block always clears
`recording` and resets `recordingState`. -/
def handleStopRecordingAt (ctx : ScreenState) (stopOk : Bool)
    (newId date time : String) (st : ScreenState) (store : Store) :
    ScreenState × Store :=
  match ctx.recording with
  | none => (st, store)
  | some uri =>
      if stopOk then
        let newNote : VoiceNote :=
          { id := newId
            text := "Note " ++ toString (ctx.voiceNotes.length + 1)
            uri := uri
            date := date
            time := time
            duration := ctx.recordingState.duration }
        let updatedNotes := newNote :: ctx.voiceNotes
        ({ st with
            voiceNotes := updatedNotes
            recording := none
            recordingState :=
              { isRecording := false, duration := 0, isPaused := false } },
          saveNotes updatedNotes store)
      else
        ({ st with
            recording := none
            recordingState :=
              { isRecording := false, duration := 0, isPaused := false } },
          store)

/-- One firing of the recording timer (lines 89-103). The `setInterval`
callback was installed by the effect in the render whose state was `ctx`,
so the `handleStopRecording` it invokes is the closure of that render.
The functional updater reads the current `recordingState` (`prev`): at or
above `MAX_RECORDING_DURATION` it calls that captured stop handler and
returns `prev` unchanged; below it, it increments `duration`. -/
def timerTick (ctx : ScreenState) (stopOk : Bool)
    (newId date time : String) (st : ScreenState) (store : Store) :
    ScreenState × Store :=
  if st.recordingState.duration ≥ MAX_RECORDING_DURATION then
    handleStopRecordingAt ctx stopOk newId date time st store
  else
    ({ st with
        recordingState :=
          { st.recordingState with
            duration := st.recordingState.duration + 1 } },
      store)

/-- Iterate the recording timer `n` times with the closure of render
`ctx` (the render in which the effect installed the interval). -/
def runTicks (ctx : ScreenState) (stopOk : Bool)
    (newId date time : String) : Nat → ScreenState × Store →
    ScreenState × Store
  | 0, s => s
  | n + 1, s =>
      runTicks ctx stopOk newId date time n
        (timerTick ctx stopOk newId date time s.1 s.2)

/-- A playback status delivered to an `onPlaybackStatusUpdate` callback
by `expo-av` (the fields the code reads). -/
structure SoundStatus where
  isLoaded : Bool
  isPlaying : Bool
  positionMillis : ℚ
  durationMillis : ℚ
  didJustFinish : Bool
  deriving Repr, DecidableEq

/-- The status callback registered by `playAudio` in `RecordsScreen`
(lines 232-250): when loaded, update `progress` to
`positionMillis / durationMillis`; when `didJustFinish`, additionally
`await sound.unloadAsync()`, `setCurrentSound(null)` and reset
`isPlaying`, `currentNoteId`, `progress`. -/
def recordsStatusUpdate (status : SoundStatus) (st : ScreenState) :
    ScreenState :=
  if status.isLoaded then
    let st1 :=
      { st with
        playbackState :=
          { st.playbackState with
            progress := status.positionMillis / status.durationMillis } }
    if status.didJustFinish then
      { st1 with
        currentSound := none
        playbackState :=
          { st1.playbackState with
            isPlaying := false, currentNoteId := none, progress := 0 } }
    else st1
  else st

/-- Component state of `VoiceNoteModal` relevant to the claims: the
loaded `Audio.Sound` (opaque handle, `none` when null), `isPlaying`,
`playbackPosition` (ms), `playbackSpeed` and `duration` (ms). -/
structure ModalState where
  sound : Option Nat
  isPlaying : Bool
  playbackPosition : ℚ
  playbackSpeed : ℚ
  duration : ℚ
  deriving Repr, DecidableEq

/-- Callback `onPlaybackStatusUpdate` of `VoiceNoteModal`
(lines 682-695): bail out when not loaded; mirror `isPlaying` and
`positionMillis` into state; on `didJustFinish`, set `isPlaying := false`
and `playbackPosition := 0`. The sound handle is not unloaded here. -/
def modalStatusUpdate (status : SoundStatus) (m : ModalState) :
    ModalState :=
  if status.isLoaded then
    let m1 :=
      { m with
        isPlaying := status.isPlaying
        playbackPosition := status.positionMillis }
    if status.didJustFinish then
      { m1 with isPlaying := false, playbackPosition := 0 }
    else m1
  else m

/-- Handler `handleSeek(value)` of `VoiceNoteModal` (lines 359-365):
with a sound loaded, compute `newPosition = value * duration`, send it to
`setPositionAsync` and store it — with no clamping. Without a sound it
does nothing. -/
def handleSeek (value : ℚ) (m : ModalState) : ModalState :=
  match m.sound with
  | none => m
  | some _ => { m with playbackPosition := value * m.duration }

/-- Handler `onSeekSliderComplete(value)` (lines 732-745): identical
position computation to `handleSeek`, again unclamped. -/
def onSeekSliderComplete (value : ℚ) (m : ModalState) : ModalState :=
  match m.sound with
  | none => m
  | some _ => { m with playbackPosition := value * m.duration }

/-- Handler `onSkipPress(skipAmount)` (lines 747-759): with a sound
loaded, send `Math.max(0, Math.min(playbackPosition + skipAmount,
duration))` to `setPositionAsync` (the component position itself is only
updated later by the status callback). Returns the position sent to the
device, `none` when no sound is loaded. -/
def onSkipPress (skipAmount : ℚ) (m : ModalState) : Option ℚ :=
  match m.sound with
  | none => none
  | some _ => some (max 0 (min (m.playbackPosition + skipAmount) m.duration))

/-- Helper for substring search on character lists: does `hay` start
with `needle`? -/
def startsWith : List Char → List Char → Bool
  | [], _ => true
  | _ :: _, [] => false
  | a :: as, b :: bs => a = b && startsWith as bs

/-- Model of JavaScript `hay.includes(needle)` (substring containment)
on character lists. -/
def jsIncludes (needle : List Char) : List Char → Bool
  | [] => needle.isEmpty
  | b :: bs => startsWith needle (b :: bs) || jsIncludes needle bs

/-- Model of JavaScript `s.toLowerCase()` as a character list. -/
def lowerStr (s : String) : List Char :=
  s.data.map Char.toLower

/-- The search filter of `RecordsScreen` (`FlatList` data, lines 441-443):
`voiceNotes.filter(note =>
  note.text.toLowerCase().includes(searchQuery.toLowerCase()))`. -/
def filteredNotes (searchQuery : String) (voiceNotes : List VoiceNote) :
    List VoiceNote :=
  voiceNotes.filter fun note =>
    jsIncludes (lowerStr searchQuery) (lowerStr note.text)

/-- Reading the persisted collection back (`loadNotes`, lines 134-146):
the stored list when the key exists, otherwise the empty default. -/
def readNotes (store : Store) : List VoiceNote :=
  store.getD []

/-- A concrete note used to instantiate the general theorems. -/
def sampleNote : VoiceNote where
  id := "1"
  text := "hello"
  uri := "file:a.m4a"
  date := "5/18/2024"
  time := "10:00:00"
  duration := 3

/-- A concrete screen state with an active playback session (a loaded
sound, playing, with a current note). -/
def playingState : ScreenState :=
  { initialScreenState with
    voiceNotes := [sampleNote]
    currentSound := some 1
    playbackState :=
      { isPlaying := true, playbackSpeed := 1, currentNoteId := some "1",
        progress := 1 / 2 } }

/-- A concrete modal state with a loaded 10000 ms sound positioned at
2000 ms. -/
def modalSample : ModalState where
  sound := some 1
  isPlaying := false
  playbackPosition := 2000
  playbackSpeed := 1
  duration := 10000

/-- A status tick reporting natural end of media. -/
def finishStatus : SoundStatus where
  isLoaded := true
  isPlaying := false
  positionMillis := 5000
  durationMillis := 5000
  didJustFinish := true

/-- The state right after `handleStartRecording` succeeds from the
initial state: this is the render whose effect installs the recording
interval, so it is also the state captured by the closure of the interval. -/
def recStartState : ScreenState :=
  handleStartRecording true "file:rec.m4a" initialScreenState

/-- A full unattended recording run: the timer fires 601 times (600
increments take the counter from 0 to `MAX_RECORDING_DURATION`; the 601st
firing sees the ceiling reached and invokes the captured stop handler,
whose device calls succeed). -/
def autoStopRun : ScreenState × Store :=
  runTicks recStartState true "90601" "5/18/2024" "10:10:01" 601
    (recStartState, some [])

/-- Correctness of the prefix test: `startsWith needle hay` holds exactly
when `hay` extends `needle`. -/
theorem startsWith_iff : ∀ needle hay : List Char,
    startsWith needle hay = true ↔ ∃ t, hay = needle ++ t
  | [], hay => by simp [startsWith]
  | _ :: _, [] => by simp [startsWith]
  | a :: as, b :: bs => by
      rw [startsWith]
      simp only [Bool.and_eq_true, decide_eq_true_eq, startsWith_iff as bs,
        List.cons_append, List.cons.injEq]
      constructor
      · rintro ⟨rfl, t, rfl⟩
        exact ⟨t, rfl, rfl⟩
      · rintro ⟨t, rfl, rfl⟩
        exact ⟨rfl, t, rfl⟩

/-- Correctness of the substring test: `jsIncludes needle hay` holds
exactly when `needle` occurs contiguously inside `hay`. -/
theorem jsIncludes_iff : ∀ needle hay : List Char,
    jsIncludes needle hay = true ↔ ∃ pre post, hay = pre ++ needle ++ post
  | needle, [] => by
      simp only [jsIncludes, List.isEmpty_iff]
      constructor
      · rintro rfl
        exact ⟨[], [], rfl⟩
      · rintro ⟨pre, post, h⟩
        rcases List.append_eq_nil.mp h.symm with ⟨h1, h2⟩
        rcases List.append_eq_nil.mp h1 with ⟨-, h3⟩
        exact h3
  | needle, b :: bs => by
      rw [jsIncludes]
      simp only [Bool.or_eq_true, startsWith_iff, jsIncludes_iff needle bs]
      constructor
      · rintro (⟨t, ht⟩ | ⟨pre, post, hp⟩)
        · exact ⟨[], t, by simpa using ht⟩
        · exact ⟨b :: pre, post, by simp [hp]⟩
      · rintro ⟨pre, post, h⟩
        match pre, h with
        | [], h => exact Or.inl ⟨post, by simpa using h⟩
        | p :: ps, h =>
            rw [List.cons_append, List.cons_append] at h
            exact Or.inr ⟨ps, post, by simpa using (List.cons.inj h).2⟩

/-- The empty needle is a substring of everything (JavaScript
`s.includes("")` is always `true`). -/
theorem jsIncludes_nil : ∀ hay : List Char, jsIncludes [] hay = true
  | [] => rfl
  | _ :: _ => rfl

/-- C10: the search filter with the empty query is the identity on the
collection; for every query the result is an order-preserving subsequence
of the collection; and a note is in the result exactly when it is in the
collection and its lowercased text contains the lowercased query as a
contiguous substring. The filter is a pure function of the collection. -/
theorem C10_search_filter (searchQuery : String)
    (voiceNotes : List VoiceNote) :
    filteredNotes "" voiceNotes = voiceNotes ∧
    List.Sublist (filteredNotes searchQuery voiceNotes) voiceNotes ∧
    (∀ note, note ∈ filteredNotes searchQuery voiceNotes ↔
      note ∈ voiceNotes ∧
      ∃ pre post,
        lowerStr note.text = pre ++ lowerStr searchQuery ++ post) := by
  refine ⟨?_, ?_, ?_⟩
  · exact List.filter_eq_self.mpr fun note _ => jsIncludes_nil _
  · exact List.filter_sublist _
  · intro note
    rw [filteredNotes, List.mem_filter, jsIncludes_iff]

/-- Witness instantiating `C10_search_filter` on a one-note collection. -/
theorem C10_search_filter_witness :
    filteredNotes "" [sampleNote] = [sampleNote] :=
  (C10_search_filter "query" [sampleNote]).1

/-- C3: along any finite sequence of create / rename / delete operations,
after the persistence step of each operation the stored collection is exactly
the in-memory one, so reading it back returns the in-memory collection. -/
theorem C3_persist_after_each_op (ops : List NoteOp)
    (init : List VoiceNote × Store) :
    ∀ s ∈ noteOpTrace ops init, s.2 = some s.1 ∧ readNotes s.2 = s.1 := by
  induction ops generalizing init with
  | nil =>
      intro s hs
      simp [noteOpTrace] at hs
  | cons op ops ih =>
      intro s hs
      rw [noteOpTrace] at hs
      rcases List.mem_cons.mp hs with rfl | hs
      · exact ⟨rfl, rfl⟩
      · exact ih (noteOpStep op init) s hs

/-- Witness instantiating `C3_persist_after_each_op` on a concrete
create-rename-delete sequence. -/
theorem C3_persist_witness :
    (noteOpStep (NoteOp.create sampleNote) ([], none)).2 =
      some (noteOpStep (NoteOp.create sampleNote) ([], none)).1 :=
  (C3_persist_after_each_op [NoteOp.create sampleNote] ([], none)
    _ (by simp [noteOpTrace])).1

/-- C4, counterexample: renaming a note to the empty string is not
rejected — the code has no validation — and both the in-memory and the
persisted text become `""` (the original text was `"hello"`). -/
theorem C4_counterexample :
    ((noteOpStep (NoteOp.rename "1" "") ([sampleNote], some [sampleNote])).1.map
        VoiceNote.text = [""]) ∧
    ((noteOpStep (NoteOp.rename "1" "") ([sampleNote], some [sampleNote])).2.map
        (List.map VoiceNote.text) = some [""]) ∧
    sampleNote.text = "hello" := by
  refine ⟨rfl, rfl, rfl⟩

/-- C4 amended: `editNote` performs no validation: for every new text,
the empty string included, it succeeds, rewriting the text of exactly the
notes whose id matches and persisting the updated collection. -/
theorem C4_rename_no_validation (selectedId newText : String)
    (notes : List VoiceNote) (store : Store) :
    (saveNotes (editNoteNotes selectedId newText notes) store =
      some (editNoteNotes selectedId newText notes)) ∧
    (editNoteNotes selectedId newText notes).length = notes.length ∧
    (∀ note ∈ notes, note.id = selectedId →
      { note with text := newText } ∈ editNoteNotes selectedId newText notes) ∧
    (∀ note ∈ notes, note.id ≠ selectedId →
      note ∈ editNoteNotes selectedId newText notes) := by
  refine ⟨rfl, by simp [editNoteNotes], ?_, ?_⟩
  · intro note hmem hid
    rw [editNoteNotes]
    exact List.mem_map.mpr ⟨note, hmem, by rw [if_pos hid]⟩
  · intro note hmem hid
    rw [editNoteNotes]
    exact List.mem_map.mpr ⟨note, hmem, by rw [if_neg hid]⟩

/-- Witness instantiating `C4_rename_no_validation`: renaming the sample
note to the empty string keeps it in the collection with text `""`. -/
theorem C4_rename_witness :
    { sampleNote with text := "" } ∈ editNoteNotes "1" "" [sampleNote] :=
  (C4_rename_no_validation "1" "" [sampleNote] (some [sampleNote])).2.2.1
    sampleNote (by simp) rfl

/-- C7: for a note present in the collection, `deleteNote` removes it
from the in-memory collection and persists the removal even when the
media file delete fails (here: the URI does not resolve, so
`FileSystem.deleteAsync` rejects and the rejection is swallowed — the
file system is left as it was). -/
theorem C7_delete_despite_file_failure (noteId : String)
    (notes : List VoiceNote) (store : Store) (fs : List String)
    (n : VoiceNote)
    (hfind : notes.find? (fun note => note.id = noteId) = some n)
    (hfail : n.uri ∉ fs) :
    (∀ m ∈ (deleteNoteOp noteId notes store fs).1, m.id ≠ noteId) ∧
    (deleteNoteOp noteId notes store fs).2.1 =
      some (deleteNoteOp noteId notes store fs).1 ∧
    (deleteNoteOp noteId notes store fs).2.2 = fs := by
  refine ⟨?_, rfl, ?_⟩
  · intro m hm
    have := List.mem_filter.mp hm
    simpa using this.2
  · simp [deleteNoteOp, hfind, hfail]

/-- Witness instantiating `C7_delete_despite_file_failure` on a
collection in which the media file of the note is missing. -/
theorem C7_delete_witness :
    (deleteNoteOp "1" [sampleNote] (some [sampleNote]) []).2.2 = [] :=
  (C7_delete_despite_file_failure "1" [sampleNote] (some [sampleNote]) []
    sampleNote (by decide) (by simp)).2.2

/-- C9: deleting an id that is not in the collection raises no error and
returns the collection unchanged, rewriting the store with the same
contents and leaving the file system untouched. -/
theorem C9_delete_missing_id (noteId : String) (notes : List VoiceNote)
    (store : Store) (fs : List String)
    (habs : ∀ n ∈ notes, n.id ≠ noteId) :
    deleteNoteOp noteId notes store fs = (notes, some notes, fs) := by
  have hfind : notes.find? (fun note => note.id = noteId) = none := by
    rw [List.find?_eq_none]
    intro a ha
    simpa using habs a ha
  have hfilter : notes.filter (fun note => note.id ≠ noteId) = notes :=
    List.filter_eq_self.mpr fun a ha => by simpa using habs a ha
  simp only [deleteNoteOp, deleteNoteNotes, saveNotes, hfind, hfilter]

/-- Witness instantiating `C9_delete_missing_id` with an id absent from
the collection. -/
theorem C9_delete_missing_witness :
    deleteNoteOp "2" [sampleNote] (some [sampleNote]) ["file:a.m4a"] =
      ([sampleNote], some [sampleNote], ["file:a.m4a"]) :=
  C9_delete_missing_id "2" [sampleNote] (some [sampleNote]) ["file:a.m4a"]
    (by decide)

/-- C8: when finalization (`stopAndUnloadAsync`, or a null URI) fails,
no note is created: the in-memory collection and the store are exactly
what they were before the stop, and the session ends in the failed
terminal state (`recording = null`, `isRecording = false`). -/
theorem C8_failed_stop_creates_nothing (ctx st : ScreenState)
    (store : Store) (newId date time uri : String)
    (hrec : ctx.recording = some uri) :
    (handleStopRecordingAt ctx false newId date time st store).1.voiceNotes =
      st.voiceNotes ∧
    (handleStopRecordingAt ctx false newId date time st store).2 = store ∧
    (handleStopRecordingAt ctx false newId date time st store).1.recording =
      none ∧
    (handleStopRecordingAt ctx false newId date time st
        store).1.recordingState =
      { isRecording := false, duration := 0, isPaused := false } := by
  simp [handleStopRecordingAt, hrec]

/-- Witness instantiating `C8_failed_stop_creates_nothing` on a state
with an active recording. -/
theorem C8_failed_stop_witness :
    (handleStopRecordingAt
        (handleStartRecording true "file:rec.m4a" playingState) false
        "99" "d" "t"
        (handleStartRecording true "file:rec.m4a" playingState)
        (some [sampleNote])).2 = some [sampleNote] :=
  (C8_failed_stop_creates_nothing
    (handleStartRecording true "file:rec.m4a" playingState)
    (handleStartRecording true "file:rec.m4a" playingState)
    (some [sampleNote]) "99" "d" "t" "file:rec.m4a" rfl).2.1

/-- C1, counterexample: with a playback session loaded and playing
(`currentSound` set, `isPlaying = true`), `handleStartRecording` does not
refuse: no SessionConflict exists anywhere in the code, and the call
begins a capture (`recording` set, `isRecording = true`). -/
theorem C1_counterexample :
    playingState.currentSound = some 1 ∧
    playingState.playbackState.isPlaying = true ∧
    (handleStartRecording true "file:rec.m4a" playingState).recording =
      some "file:rec.m4a" ∧
    (handleStartRecording true "file:rec.m4a"
        playingState).recordingState.isRecording = true :=
  ⟨rfl, rfl, rfl, rfl⟩

/-- C1 amended: the two session starters never refuse each other — there
is no SessionConflict — but they do leave the state of the other session
untouched: `handleStartRecording` never reads or writes the playback
fields, and `playAudio` never reads or writes the recording fields; with
permission granted the capture always begins, and with a successful load
playback always begins. -/
theorem C1_sessions_overlap_untouched (st : ScreenState) (granted : Bool)
    (uri noteId : String) (handle : Nat) (loadOk : Bool) :
    ((handleStartRecording granted uri st).playbackState =
        st.playbackState ∧
      (handleStartRecording granted uri st).currentSound =
        st.currentSound ∧
      (handleStartRecording true uri st).recordingState.isRecording =
        true) ∧
    ((playAudio noteId handle loadOk st).recording = st.recording ∧
      (playAudio noteId handle loadOk st).recordingState =
        st.recordingState ∧
      (playAudio noteId handle true st).playbackState.isPlaying = true) := by
  unfold handleStartRecording playAudio
  cases granted <;> cases loadOk <;> simp

/-- Witness instantiating `C1_sessions_overlap_untouched` on the state
with an active playback session. -/
theorem C1_sessions_overlap_witness :
    (handleStartRecording true "file:rec.m4a" playingState).playbackState =
      playingState.playbackState :=
  (C1_sessions_overlap_untouched playingState true "file:rec.m4a" "1" 1
    true).1.1

/-- C5, counterexample: in `RecordsScreen`, a `didJustFinish` status on a
state with a loaded sound does not keep the handle loaded — the callback
unloads it (`currentSound` becomes `none`) and clears the current note,
so the next play is a fresh load through `playAudio`. -/
theorem C5_counterexample :
    playingState.currentSound = some 1 ∧
    (recordsStatusUpdate finishStatus playingState).currentSound = none ∧
    (recordsStatusUpdate finishStatus
        playingState).playbackState.currentNoteId = none :=
  ⟨rfl, rfl, rfl⟩

/-- C5 amended: on natural completion (`didJustFinish`), the
`VoiceNoteModal` callback resets position to 0 and playing to false while
keeping the sound handle loaded; the `RecordsScreen` callback also resets
position and playing but additionally unloads the sound and clears the
current note id, so only in the modal does a subsequent play avoid a new
load. -/
theorem C5_completion_reset (status : SoundStatus) (m : ModalState)
    (st : ScreenState) (hl : status.isLoaded = true)
    (hf : status.didJustFinish = true) :
    ((modalStatusUpdate status m).sound = m.sound ∧
      (modalStatusUpdate status m).isPlaying = false ∧
      (modalStatusUpdate status m).playbackPosition = 0) ∧
    ((recordsStatusUpdate status st).currentSound = none ∧
      (recordsStatusUpdate status st).playbackState.isPlaying = false ∧
      (recordsStatusUpdate status st).playbackState.progress = 0 ∧
      (recordsStatusUpdate status st).playbackState.currentNoteId =
        none) := by
  unfold modalStatusUpdate recordsStatusUpdate
  rw [hl, hf]
  simp

/-- Witness instantiating `C5_completion_reset` at a finish status on the
concrete modal and screen states. -/
theorem C5_completion_witness :
    (modalStatusUpdate finishStatus modalSample).sound =
      modalSample.sound :=
  (C5_completion_reset finishStatus modalSample playingState rfl rfl).1.1

/-- C6, counterexample: the slider seek handler does not clamp: on the
10000 ms note, a seek request of -5 stores position -50000, not 0. -/
theorem C6_counterexample :
    modalSample.duration = 10000 ∧
    (handleSeek (-5) modalSample).playbackPosition = -50000 ∧
    (-50000 : ℚ) ≠ 0 := by
  refine ⟨rfl, by norm_num [handleSeek, modalSample], by norm_num⟩

/-- C6 amended: only the skip handler clamps: `onSkipPress` sends
`min (max t 0) duration` to the device for a requested target `t`, while
`handleSeek` and `onSeekSliderComplete` store `value * duration`
unclamped. -/
theorem C6_skip_clamps_slider_does_not (m : ModalState) (t : ℚ) (s : Nat)
    (hs : m.sound = some s) (hd : 0 ≤ m.duration) :
    onSkipPress (t - m.playbackPosition) m =
      some (min (max t 0) m.duration) ∧
    ∀ value : ℚ,
      (handleSeek value m).playbackPosition = value * m.duration ∧
      (onSeekSliderComplete value m).playbackPosition =
        value * m.duration := by
  constructor
  · simp only [onSkipPress, hs]
    have harg : m.playbackPosition + (t - m.playbackPosition) = t := by ring
    rw [harg, max_min_distrib_left, max_comm (0 : ℚ) t, max_eq_right hd]
  · intro value
    constructor
    · simp [handleSeek, hs]
    · simp [onSeekSliderComplete, hs]

/-- Witness instantiating `C6_skip_clamps_slider_does_not` at the
example of the spec: requested target -5 on the 10000 ms note is clamped. -/
theorem C6_skip_clamps_witness :
    onSkipPress (-5 - modalSample.playbackPosition) modalSample =
      some (min (max (-5) 0) modalSample.duration) :=
  (C6_skip_clamps_slider_does_not modalSample (-5) 1 rfl (by norm_num
    [modalSample])).1

/-- Ticks compose: running `m + n` timer firings is running `m`, then
`n`. -/
theorem runTicks_add (ctx : ScreenState) (ok : Bool) (i d t : String) :
    ∀ (m n : Nat) (s : ScreenState × Store),
      runTicks ctx ok i d t (m + n) s =
        runTicks ctx ok i d t n (runTicks ctx ok i d t m s)
  | 0, n, s => by simp [runTicks]
  | m + 1, n, s => by
      rw [show m + 1 + n = m + n + 1 by omega]
      rw [runTicks, runTicks]
      exact runTicks_add ctx ok i d t m n _

/-- While the counter stays below the ceiling, each timer firing only
increments the counter: `n` firings add `n`, and nothing else changes. -/
theorem runTicks_increments (ctx : ScreenState) (ok : Bool)
    (i d t : String) :
    ∀ (n : Nat) (st : ScreenState) (store : Store),
      st.recordingState.duration + n ≤ MAX_RECORDING_DURATION →
      runTicks ctx ok i d t n (st, store) =
        ({ st with
            recordingState :=
              { st.recordingState with
                duration := st.recordingState.duration + n } }, store)
  | 0, st, store => fun _ => by simp [runTicks]
  | n + 1, st, store => fun h => by
      have hlt : ¬ st.recordingState.duration ≥ MAX_RECORDING_DURATION := by
        unfold MAX_RECORDING_DURATION at h ⊢
        omega
      rw [runTicks, timerTick, if_neg hlt]
      rw [runTicks_increments ctx ok i d t n _ store
        (by simp only []; unfold MAX_RECORDING_DURATION at h ⊢; omega)]
      simp only [Prod.mk.injEq, ScreenState.mk.injEq,
        RecordingState.mk.injEq, and_true, true_and]
      omega

/-- C2: an unattended recording run in which the counter reaches the
ceiling does auto-stop (the session ends, a note is saved and persisted),
but the duration of the saved note is 0, not `MAX_RECORDING_DURATION`: the
interval callback invokes the `handleStopRecording` closure captured by
the timer effect at recording start, whose `recordingState.duration`
is 0. -/
theorem C2_autostop_zero_duration :
    autoStopRun.1.voiceNotes.map VoiceNote.duration = [0] ∧
    autoStopRun.1.recordingState.isRecording = false ∧
    autoStopRun.1.recording = none ∧
    autoStopRun.2 = some autoStopRun.1.voiceNotes ∧
    MAX_RECORDING_DURATION = 600 := by
  have h600 : runTicks recStartState true "90601" "5/18/2024" "10:10:01"
      600 (recStartState, some []) =
      ({ recStartState with
          recordingState :=
            { recStartState.recordingState with duration := 600 } },
        some []) := by
    have := runTicks_increments recStartState true "90601" "5/18/2024"
      "10:10:01" 600 recStartState (some []) (by decide)
    simpa using this
  have hrun : autoStopRun =
      runTicks recStartState true "90601" "5/18/2024" "10:10:01" 1
        (runTicks recStartState true "90601" "5/18/2024" "10:10:01" 600
          (recStartState, some [])) := by
    rw [autoStopRun, show (601 : Nat) = 600 + 1 by rfl,
      runTicks_add]
  rw [hrun, h600]
  refine ⟨rfl, rfl, rfl, rfl, rfl⟩

end AudioJournal
